import Mathlib

/-!
Shallow embedding of the HTTP facade in back/src/api/api.py (FastAPI app
"Acne Tracker Analysis API") and proofs about the behaviour of its request
handlers.

Modelling conventions:
* Each handler becomes a pure Lean function parameterised by an environment
  record of collaborator oracles (the uploaded bytes, the cv2 image decoder,
  the detection collaborator analyze_skin_image, the cv2/base64 encoders, the
  existence of files on disk).  Python exceptions raised by a collaborator are
  modelled with Except; a collaborator returning None is modelled with Option.
* An HTTP response is either an HTTPError (HTTPException with status code and
  detail string) or the endpoint value.
* The /detect handler additionally reports observables needed by the claims:
  whether a temporary file was created during the call, whether a temporary
  file created during the call is still on disk when the handler exits, and
  the image content staged at the temporary path at the moment the detection
  collaborator is invoked (none when it is never invoked).
* The temporary file staged for /detect is modelled by the image value stored
  at its path; cv2.imwrite of the resized image over the same path makes that
  resized image the content the collaborator reads.
-/

namespace AcneAPI

/-- HTTPException as raised by the handlers: a status code and a detail
string. -/
structure HTTPError where
  status : Nat
  detail : String
deriving DecidableEq, Repr

/-- A decoded raster image: its pixel dimensions, and an opaque code standing
for the pixel payload. -/
structure Image where
  width : Nat
  height : Nat
  content : Nat
deriving DecidableEq, Repr

/-- The value found under the heatmap_overlay_bgr key of the detection
result: the code checks isinstance(..., np.ndarray) before encoding, so the
model records whether the value is an ndarray together with an opaque buffer
code. -/
structure HeatVal where
  isNdarray : Bool
  buf : Nat
deriving DecidableEq, Repr

/-- Pydantic model DetectionInfo (api.py lines 97-99). -/
structure DetectionInfo where
  class_name : String
  confidence : Int
deriving DecidableEq, Repr

/-- The dictionary returned by the detection collaborator analyze_skin_image.
Every key may be absent, including success and message, hence all fields are
Option. -/
structure AnalysisResults where
  success : Option Bool
  message : Option String
  severity_score : Option Int
  percentage_area : Option Int
  average_intensity : Option Int
  lesion_count : Option Int
  heatmap_overlay_bgr : Option HeatVal
  detections : Option (List DetectionInfo)
  model_classes : Option (List (Nat × String))
deriving DecidableEq, Repr

/-- Pydantic model DetectionResponse (api.py lines 101-110).  Fields with a
None default are Option; a field equal to none is the absent field of the
claims. -/
structure DetectionResponse where
  success : Bool
  message : String
  severity_score : Option Int
  percentage_area : Option Int
  average_intensity : Option Int
  lesion_count : Option Int
  heatmap_image_base64 : Option String
  detections : Option (List DetectionInfo)
  model_classes : Option (List (Nat × String))
deriving DecidableEq, Repr

/-- Environment of one /detect request: the upload and the collaborator
oracles the handler calls into. -/
structure DetectEnv where
  contentType : String
  filename : String
  content : List Nat
  imdecode : List Nat → Option Image
  resizeContent : Image → Nat
  modelExists : Bool
  analyze : Image → Except String (Option AnalysisResults)
  imencode : Nat → Option (List Nat)
  b64encode : List Nat → Option String

/-- Observable outcome of one /detect request. -/
structure DetectOutcome where
  result : Except HTTPError DetectionResponse
  tempCreated : Bool
  tempLeak : Bool
  analyzeCalledWith : Option Image
deriving Repr

/-- Kernel-reducible helper for substring search: does pat occur starting at
some position of the second list. -/
def containsAux (pat : List Char) : List Char → Bool
  | [] => List.isPrefixOf pat []
  | c :: rest => List.isPrefixOf pat (c :: rest) || containsAux pat rest

/-- Python substring membership, pat in s. -/
def containsSubstr (s pat : String) : Bool :=
  containsAux pat.data s.data

/-- Python str.lower restricted to its action on each character. -/
def pyLower (s : String) : String :=
  ⟨s.data.map Char.toLower⟩

/-- The allow-list of upload content types (api.py line 187). -/
def allowed_types : List String :=
  ["image/jpeg", "image/png", "image/bmp"]

/-- cv2.resize(img, (640, 640)) (api.py line 212): the result has the
requested dimensions and an opaquely resampled payload. -/
def resize640 (env : DetectEnv) (img : Image) : Image :=
  { width := 640, height := 640, content := env.resizeContent img }

/-- Step 7 of the handler (api.py lines 259-273): PNG-encode the heatmap
buffer with cv2.imencode, then base64-encode; on a missing or non-ndarray
value, an imencode failure, or an exception, the heatmap string is none. -/
def encodeHeatmap (env : DetectEnv) (hm : Option HeatVal) : Option String :=
  match hm with
  | none => none
  | some h =>
    match h.isNdarray with
    | false => none
    | true =>
      match env.imencode h.buf with
      | some buffer => env.b64encode buffer
      | none => none

/-- The status chosen for a failed analysis (api.py lines 253-255): 404 when
the lowercased message contains the text not found, else 500. -/
def failureStatus (m : String) : Nat :=
  if containsSubstr (pyLower m) ("not found") then 404 else 500

/-- Steps 6-8 of the handler (api.py lines 250-290): interpret the analysis
results and assemble the response.  r = none models analyze_skin_image
returning None (or an empty dict, equally falsy). -/
def processResults (env : DetectEnv) (r : Option AnalysisResults) :
    Except HTTPError DetectionResponse :=
  match r with
  | none =>
    let m := "Analysis function returned invalid data"
    .error ⟨failureStatus m, m⟩
  | some res =>
    match res.success with
    | some true =>
      .ok {
        success := true
        message := res.message.getD ("Analysis successful.")
        severity_score := res.severity_score
        percentage_area := res.percentage_area
        average_intensity := res.average_intensity
        lesion_count := res.lesion_count
        heatmap_image_base64 := encodeHeatmap env res.heatmap_overlay_bgr
        detections := some (res.detections.getD [])
        model_classes := res.model_classes }
    | _ =>
      let m := res.message.getD ("Unknown analysis error")
      .error ⟨failureStatus m, m⟩

/-- The /detect handler detect_skin_conditions (api.py lines 174-290).
analyzeAvailable models whether the import of analyze_skin_image succeeded.
The empty-content branch mirrors the source exactly: NamedTemporaryFile has
already created the file on disk, the 400 is raised inside the with-block
before temp_image_path is assigned, and the finally clause only removes the
file when temp_image_path is set, so on that branch the file remains. -/
def detect_skin_conditions (env : DetectEnv) (analyzeAvailable : Bool) :
    DetectOutcome :=
  match analyzeAvailable with
  | false =>
    { result := .error ⟨501, "Detection analysis feature is not available."⟩,
      tempCreated := false, tempLeak := false, analyzeCalledWith := none }
  | true =>
  match allowed_types.contains env.contentType with
  | false =>
    { result := .error ⟨415, "Invalid file type \x27" ++ env.contentType ++
          "\x27. Please upload JPG, PNG, or BMP."⟩,
      tempCreated := false, tempLeak := false, analyzeCalledWith := none }
  | true =>
  match env.content with
  | [] =>
    { result := .error ⟨400, "Received empty file content."⟩,
      tempCreated := true, tempLeak := true, analyzeCalledWith := none }
  | _ :: _ =>
    match env.imdecode env.content with
    | none =>
      { result := .error ⟨400, "Could not read the uploaded image."⟩,
        tempCreated := true, tempLeak := false, analyzeCalledWith := none }
    | some img =>
      let resized := resize640 env img
      match env.modelExists with
      | false =>
        { result := .error ⟨503,
            "Required analysis model file is currently unavailable."⟩,
          tempCreated := true, tempLeak := false, analyzeCalledWith := none }
      | true =>
        match env.analyze resized with
        | .error _ =>
          { result := .error ⟨500,
              "An error occurred while processing the image."⟩,
            tempCreated := true, tempLeak := false,
            analyzeCalledWith := some resized }
        | .ok r =>
          { result := processResults env r,
            tempCreated := true, tempLeak := false,
            analyzeCalledWith := some resized }

/-- Response model of the /analyze/ endpoint (api.py lines 93-95): a mapping
of correlation names to opaque metric codes, and a summary string. -/
structure AnalysisResponse where
  correlations : List (String × Int)
  summary : String
deriving DecidableEq, Repr

/-- Exceptions the correlation collaborator may raise, distinguishing
FileNotFoundError (caught separately at api.py line 165) from any other
exception. -/
inductive PyExn where
  | fileNotFound (msg : String)
  | other (msg : String)
deriving DecidableEq, Repr

/-- Environment of one /analyze/ request: the deployment directory the
database path is derived from, whether that database file exists, and the
correlation collaborator analyze_acne_data. -/
structure AnalyzeEnv where
  backDir : String
  dbExists : Bool
  analyze_acne_data : String → Except PyExn (List (String × Int) × String)

/-- Observable outcome of one /analyze/ request: the response, and whether
the correlation collaborator was invoked. -/
structure AnalyzeOutcome where
  result : Except HTTPError AnalysisResponse
  analyzeCalled : Bool

/-- The database path os.path.join(BACK_DIR, \x27\x27, \x27acne_tracker.db\x27)
(api.py line 158); the empty middle component only inserts the separator. -/
def analyze_db_path (backDir : String) : String :=
  backDir ++ "/acne_tracker.db"

/-- The /analyze/ handler analyze_endpoint (api.py lines 152-171).  available
models whether the import of analyze_acne_data succeeded.  A missing database
file raises FileNotFoundError before the collaborator is called; that
exception, like a FileNotFoundError from the collaborator itself, is mapped
to 404 with the exception text as detail, and any other exception to 500. -/
def analyze_endpoint (env : AnalyzeEnv) (available : Bool) : AnalyzeOutcome :=
  match available with
  | false =>
    { result := .error ⟨501, "Correlation analysis feature not available."⟩,
      analyzeCalled := false }
  | true =>
    let db_path := analyze_db_path env.backDir
    match env.dbExists with
    | false =>
      { result := .error ⟨404,
          "Database file not found at required path: " ++ db_path⟩,
        analyzeCalled := false }
    | true =>
      match env.analyze_acne_data db_path with
      | .ok (c, s) =>
        { result := .ok ⟨c, s⟩, analyzeCalled := true }
      | .error (.fileNotFound m) =>
        { result := .error ⟨404, m⟩, analyzeCalled := true }
      | .error (.other m) =>
        { result := .error ⟨500,
            "Failed during correlation analysis: " ++ m⟩,
          analyzeCalled := true }

/-- Pydantic model Profile (api.py lines 85-91); the date of birth is carried
already in its ISO form, since only its string image crosses the boundary to
the profile store. -/
structure Profile where
  user_id : String := "user_1"
  name : String
  dobIso : String
  height : Int
  weight : Int
  gender : String := "Not Specified"
deriving DecidableEq, Repr

/-- The POST /profile/ handler save_profile_endpoint (api.py lines 117-130).
save models the profile-store collaborator save_profile_to_db; an exception
from it (with its internal message) is logged and mapped to a fixed generic
500 detail. -/
def save_profile_endpoint (save : Profile → Except String Unit)
    (available : Bool) (profile : Profile) : Except HTTPError String :=
  match available with
  | false => .error ⟨501, "Profile saving feature not available."⟩
  | true =>
    match save profile with
    | .ok _ => .ok ("Profile saved successfully")
    | .error _ => .error ⟨500, "Failed to save profile."⟩

/-- A baseline /detect environment: an allowed content type, a one-byte
upload that decodes to a 5 x 7 image, model weights present, and a
collaborator that returns None. -/
def envBase : DetectEnv :=
  { contentType := "image/png"
    filename := "img.png"
    content := [1]
    imdecode := fun _ => some ⟨5, 7, 0⟩
    resizeContent := fun _ => 9
    modelExists := true
    analyze := fun _ => .ok none
    imencode := fun _ => some [0]
    b64encode := fun _ => some ("AA==") }

instance {e a : Type} [DecidableEq e] [DecidableEq a] : DecidableEq (Except e a) := fun x y =>
  match x, y with
  | .ok u, .ok v =>
    if h : u = v then isTrue (by rw [h]) else isFalse (by simp [h])
  | .error u, .error v =>
    if h : u = v then isTrue (by rw [h]) else isFalse (by simp [h])
  | .ok _, .error _ => isFalse (by simp)
  | .error _, .ok _ => isFalse (by simp)

/-- A /detect environment whose upload body is empty. -/
def envEmpty : DetectEnv :=
  { envBase with content := [] }

/-- A detection result reporting failure with a message that contains the
text not found without being equal to the exact message model not found. -/
def resNotFound : AnalysisResults :=
  { success := some false
    message := some ("image not found")
    severity_score := none
    percentage_area := none
    average_intensity := none
    lesion_count := none
    heatmap_overlay_bgr := none
    detections := none
    model_classes := none }

/-- A successful detection result that omits every optional key. -/
def resOmit : AnalysisResults :=
  { success := some true
    message := some ("Analysis successful")
    severity_score := none
    percentage_area := none
    average_intensity := none
    lesion_count := none
    heatmap_overlay_bgr := none
    detections := none
    model_classes := none }

/-- A successful detection result carrying a heatmap ndarray buffer. -/
def resHeat : AnalysisResults :=
  { resOmit with heatmap_overlay_bgr := some ⟨true, 3⟩ }

/-- envBase with the collaborator failing with the message image not found. -/
def envC2 : DetectEnv :=
  { envBase with analyze := fun _ => .ok (some resNotFound) }

/-- envBase with the collaborator succeeding while omitting every optional
key. -/
def envC3 : DetectEnv :=
  { envBase with analyze := fun _ => .ok (some resOmit) }

/-- envBase with the collaborator returning a heatmap buffer whose PNG
encoding fails. -/
def envC4 : DetectEnv :=
  { envBase with
    analyze := fun _ => .ok (some resHeat)
    imencode := fun _ => none }

/-- A concrete /analyze/ environment whose database file is missing. -/
def envAnalyze : AnalyzeEnv :=
  { backDir := "/app/back"
    dbExists := false
    analyze_acne_data := fun _ => .error (.other "boom") }

/-- A concrete well-typed profile. -/
def profileEx : Profile :=
  { user_id := "user_1"
    name := "Alice"
    dobIso := "2000-01-31"
    height := 170
    weight := 60
    gender := "Not Specified" }

/-- Claim C10: in the /detect handler the availability check on the detection
collaborator precedes all input validation: whenever the collaborator is
unavailable, every upload, whatever its content type or byte payload, yields
the 501 response, never 415 or 400, and no temporary file is created and no
downstream step runs. -/
theorem detect_unavailable_yields_501 (env : DetectEnv) :
    detect_skin_conditions env false =
      { result := .error ⟨501, "Detection analysis feature is not available."⟩,
        tempCreated := false, tempLeak := false, analyzeCalledWith := none } :=
  rfl

/-- Claim C5: a /detect upload whose declared content type is outside the
allow-list is rejected with 415 naming the rejected type, for every byte
payload, with the collaborator available; no temporary file is created and
the detection collaborator is never invoked. -/
theorem detect_bad_content_type_yields_415 (env : DetectEnv)
    (h : allowed_types.contains env.contentType = false) :
    detect_skin_conditions env true =
      { result := .error ⟨415, "Invalid file type \x27" ++ env.contentType ++
            "\x27. Please upload JPG, PNG, or BMP."⟩,
        tempCreated := false, tempLeak := false, analyzeCalledWith := none } := by
  unfold detect_skin_conditions
  rw [h]

/-- Witness for claim C5 at the content type text/plain. -/
theorem detect_bad_content_type_yields_415_witness :
    detect_skin_conditions { envBase with contentType := "text/plain" } true =
      { result := .error ⟨415,
          "Invalid file type \x27text/plain\x27. Please upload JPG, PNG, or BMP."⟩,
        tempCreated := false, tempLeak := false, analyzeCalledWith := none } :=
  detect_bad_content_type_yields_415 { envBase with contentType := "text/plain" }
    (by decide)

/-- Claim C6: a /detect call with an allowed content type and a zero-length
uploaded byte payload yields 400, and the detection collaborator is never
invoked. -/
theorem detect_empty_upload_yields_400 (env : DetectEnv)
    (hct : allowed_types.contains env.contentType = true)
    (hc : env.content = []) :
    (detect_skin_conditions env true).result =
      .error ⟨400, "Received empty file content."⟩ ∧
    (detect_skin_conditions env true).analyzeCalledWith = none := by
  unfold detect_skin_conditions
  rw [hct, hc]
  exact ⟨rfl, rfl⟩

/-- Witness for claim C6 at a zero-byte image/png upload. -/
theorem detect_empty_upload_yields_400_witness :
    (detect_skin_conditions envEmpty true).result =
      .error ⟨400, "Received empty file content."⟩ ∧
    (detect_skin_conditions envEmpty true).analyzeCalledWith = none :=
  detect_empty_upload_yields_400 envEmpty (by decide) rfl

/-- Claim C8: when the configured database file is absent, /analyze/ yields
404 with a detail naming the expected path, and the correlation collaborator
is never invoked. -/
theorem analyze_missing_db_yields_404 (env : AnalyzeEnv)
    (h : env.dbExists = false) :
    (analyze_endpoint env true).result =
      .error ⟨404, "Database file not found at required path: " ++
        analyze_db_path env.backDir⟩ ∧
    (analyze_endpoint env true).analyzeCalled = false := by
  unfold analyze_endpoint
  rw [h]
  exact ⟨rfl, rfl⟩

/-- Witness for claim C8 at the deployment directory /app/back. -/
theorem analyze_missing_db_yields_404_witness :
    (analyze_endpoint envAnalyze true).result =
      .error ⟨404,
        "Database file not found at required path: /app/back/acne_tracker.db"⟩ ∧
    (analyze_endpoint envAnalyze true).analyzeCalled = false :=
  analyze_missing_db_yields_404 envAnalyze rfl

/-- Claim C9: whenever the profile-store collaborator raises, the client
response of save_profile is the 500 with the one fixed generic detail,
identically for any two collaborator exception messages, so the internal
message never reaches the caller. -/
theorem save_profile_error_detail_fixed
    (save1 save2 : Profile → Except String Unit) (p : Profile)
    (m1 m2 : String)
    (h1 : save1 p = .error m1) (h2 : save2 p = .error m2) :
    save_profile_endpoint save1 true p = save_profile_endpoint save2 true p ∧
    save_profile_endpoint save1 true p =
      .error ⟨500, "Failed to save profile."⟩ := by
  unfold save_profile_endpoint
  rw [h1, h2]
  exact ⟨rfl, rfl⟩

/-- Witness for claim C9 at two different collaborator exception messages. -/
theorem save_profile_error_detail_fixed_witness :
    save_profile_endpoint (fun _ => .error ("db is locked")) true profileEx =
      save_profile_endpoint (fun _ => .error ("secret: /var/lib/key")) true
        profileEx ∧
    save_profile_endpoint (fun _ => .error ("db is locked")) true profileEx =
      .error ⟨500, "Failed to save profile."⟩ :=
  save_profile_error_detail_fixed (fun _ => .error ("db is locked"))
    (fun _ => .error ("secret: /var/lib/key")) profileEx ("db is locked")
    ("secret: /var/lib/key") rfl rfl

/-- Path lemma: with an allowed content type, a nonempty upload that decodes,
and the model weights present, the /detect result is processResults of what
the collaborator returned, and the collaborator was invoked on the resized
staged image. -/
theorem detect_result_of_ok (env : DetectEnv) (img : Image)
    (r : Option AnalysisResults)
    (hct : allowed_types.contains env.contentType = true)
    (hc : env.content ≠ [])
    (hd : env.imdecode env.content = some img)
    (hm : env.modelExists = true)
    (ha : env.analyze (resize640 env img) = .ok r) :
    (detect_skin_conditions env true).result = processResults env r ∧
    (detect_skin_conditions env true).analyzeCalledWith =
      some (resize640 env img) := by
  unfold detect_skin_conditions
  cases hcc : env.content with
  | nil => exact absurd hcc hc
  | cons b bs =>
    rw [hcc] at hd
    simp only [hct, hcc, hd, hm, ha]
    refine ⟨?_, ?_⟩ <;> trivial

/-- processResults on a result whose success flag is some true builds the
successful response. -/
theorem processResults_success (env : DetectEnv) (res : AnalysisResults)
    (hs : res.success = some true) :
    processResults env (some res) = .ok {
      success := true
      message := res.message.getD ("Analysis successful.")
      severity_score := res.severity_score
      percentage_area := res.percentage_area
      average_intensity := res.average_intensity
      lesion_count := res.lesion_count
      heatmap_image_base64 := encodeHeatmap env res.heatmap_overlay_bgr
      detections := some (res.detections.getD [])
      model_classes := res.model_classes } := by
  simp only [processResults, hs]

/-- processResults on a result with a falsy success flag and the message m
raises with failureStatus m and detail m. -/
theorem processResults_failure (env : DetectEnv) (res : AnalysisResults)
    (m : String)
    (hs : res.success = some false ∨ res.success = none)
    (hmsg : res.message = some m) :
    processResults env (some res) = .error ⟨failureStatus m, m⟩ := by
  rcases hs with hs | hs <;>
    simp only [processResults, hs, hmsg, Option.getD_some]

/-- Claim C1: contrary to the guaranteed-cleanup claim, the empty-upload exit
path of /detect leaves its staged temporary file on disk: at a zero-byte
image/png upload the handler creates the temporary file, raises 400, and the
file remains, while on an exit path past the empty-content guard (here the
baseline environment) the file is removed. -/
theorem detect_empty_upload_leaks_temp_file :
    (detect_skin_conditions envEmpty true).tempCreated = true ∧
    (detect_skin_conditions envEmpty true).tempLeak = true ∧
    (detect_skin_conditions envEmpty true).result =
      .error ⟨400, "Received empty file content."⟩ ∧
    (detect_skin_conditions envBase true).tempLeak = false :=
  ⟨rfl, rfl, rfl, rfl⟩

/-- Counterexample to claim C2 as stated: the collaborator failure message
image not found differs from model not found, yet the handler raises 404 for
it, not 500. -/
theorem detect_not_found_substring_is_404 :
    (detect_skin_conditions envC2 true).result =
      .error ⟨404, "image not found"⟩ ∧
    ("image not found" : String) ≠ ("model not found" : String) :=
  ⟨by decide, by decide⟩

/-- Claim C2 as amended: when the detection collaborator reports failure
(success flag false) with message m, or returns no result at all (the handler
then uses the message m = Analysis function returned invalid data), the
/detect error carries m as the detail and its status is 404 exactly when the
lowercased m contains the text not found, and 500 for any other failure
message. -/
theorem detect_failure_status_matches_substring (env : DetectEnv)
    (img : Image) (r : Option AnalysisResults) (m : String)
    (hct : allowed_types.contains env.contentType = true)
    (hc : env.content ≠ [])
    (hd : env.imdecode env.content = some img)
    (hm : env.modelExists = true)
    (ha : env.analyze (resize640 env img) = .ok r)
    (hfail : (r = none ∧ m = "Analysis function returned invalid data") ∨
      ∃ res, r = some res ∧ res.success = some false ∧ res.message = some m) :
    (detect_skin_conditions env true).result =
      .error ⟨(if containsSubstr (pyLower m) ("not found") then 404 else 500),
        m⟩ := by
  have h1 := (detect_result_of_ok env img r hct hc hd hm ha).1
  rcases hfail with ⟨hr, hmv⟩ | ⟨res, hr, hs, hmsg⟩
  · subst hr
    subst hmv
    rw [h1]
    exact rfl
  · subst hr
    rw [h1, processResults_failure env res m (Or.inl hs) hmsg]
    exact rfl

/-- Witness for the amended claim C2 at the failure message image not found,
which contains not found and yields 404. -/
theorem detect_failure_status_matches_substring_witness :
    (detect_skin_conditions envC2 true).result =
      .error ⟨(if containsSubstr (pyLower ("image not found")) ("not found")
          then 404 else 500),
        "image not found"⟩ :=
  detect_failure_status_matches_substring envC2 ⟨5, 7, 0⟩ (some resNotFound)
    ("image not found") (by decide) (by decide) rfl rfl rfl
    (Or.inr ⟨resNotFound, rfl, rfl, rfl⟩)

/-- Counterexample to claim C3 as stated: when the collaborator omits the
detections key, the response field detections is not absent; it is the
present empty list. -/
theorem detect_omitted_detections_still_present :
    resOmit.detections = none ∧
    (detect_skin_conditions envC3 true).result = .ok {
      success := true
      message := "Analysis successful"
      severity_score := none
      percentage_area := none
      average_intensity := none
      lesion_count := none
      heatmap_image_base64 := none
      detections := some []
      model_classes := none } ∧
    (some ([] : List DetectionInfo) ≠ (none : Option (List DetectionInfo))) :=
  ⟨rfl, by decide, by decide⟩

/-- Claim C3 as amended: on a successful /detect response, each of
severity_score, percentage_area, average_intensity, lesion_count,
heatmap_image_base64 and model_classes is absent whenever the collaborator
omits the corresponding value, while an omitted detections value yields the
present empty detections list. -/
theorem detect_success_omitted_fields (env : DetectEnv) (img : Image)
    (res : AnalysisResults)
    (hct : allowed_types.contains env.contentType = true)
    (hc : env.content ≠ [])
    (hd : env.imdecode env.content = some img)
    (hm : env.modelExists = true)
    (ha : env.analyze (resize640 env img) = .ok (some res))
    (hs : res.success = some true) :
    ∃ resp, (detect_skin_conditions env true).result = .ok resp ∧
      (res.severity_score = none → resp.severity_score = none) ∧
      (res.percentage_area = none → resp.percentage_area = none) ∧
      (res.average_intensity = none → resp.average_intensity = none) ∧
      (res.lesion_count = none → resp.lesion_count = none) ∧
      (res.heatmap_overlay_bgr = none → resp.heatmap_image_base64 = none) ∧
      (res.model_classes = none → resp.model_classes = none) ∧
      (res.detections = none → resp.detections = some []) := by
  have h1 := (detect_result_of_ok env img (some res) hct hc hd hm ha).1
  rw [processResults_success env res hs] at h1
  refine ⟨_, h1, ?_, ?_, ?_, ?_, ?_, ?_, ?_⟩ <;> intro h <;> rw [h] <;> rfl

/-- Witness for the amended claim C3 at a collaborator result omitting every
optional key. -/
theorem detect_success_omitted_fields_witness :
    ∃ resp, (detect_skin_conditions envC3 true).result = .ok resp ∧
      (resOmit.severity_score = none → resp.severity_score = none) ∧
      (resOmit.percentage_area = none → resp.percentage_area = none) ∧
      (resOmit.average_intensity = none → resp.average_intensity = none) ∧
      (resOmit.lesion_count = none → resp.lesion_count = none) ∧
      (resOmit.heatmap_overlay_bgr = none → resp.heatmap_image_base64 = none) ∧
      (resOmit.model_classes = none → resp.model_classes = none) ∧
      (resOmit.detections = none → resp.detections = some []) :=
  detect_success_omitted_fields envC3 ⟨5, 7, 0⟩ resOmit (by decide) (by decide)
    rfl rfl rfl rfl

/-- Claim C4: when the collaborator succeeds and returns a heatmap ndarray
buffer whose PNG encoding or base64 encoding fails, /detect still returns a
successful response with success true and the heatmap_image_base64 field
absent. -/
theorem detect_heatmap_encoding_failure_nonfatal (env : DetectEnv)
    (img : Image) (res : AnalysisResults) (hv : HeatVal)
    (hct : allowed_types.contains env.contentType = true)
    (hc : env.content ≠ [])
    (hd : env.imdecode env.content = some img)
    (hm : env.modelExists = true)
    (ha : env.analyze (resize640 env img) = .ok (some res))
    (hs : res.success = some true)
    (hh : res.heatmap_overlay_bgr = some hv)
    (hnd : hv.isNdarray = true)
    (henc : env.imencode hv.buf = none ∨
      ∃ b, env.imencode hv.buf = some b ∧ env.b64encode b = none) :
    ∃ resp, (detect_skin_conditions env true).result = .ok resp ∧
      resp.success = true ∧ resp.heatmap_image_base64 = none := by
  have h1 := (detect_result_of_ok env img (some res) hct hc hd hm ha).1
  rw [processResults_success env res hs] at h1
  have henc0 : encodeHeatmap env res.heatmap_overlay_bgr = none := by
    rw [hh]
    rcases henc with h2 | ⟨b, hb, h2⟩
    · simp only [encodeHeatmap, hnd, h2]
    · simp only [encodeHeatmap, hnd, hb, h2]
  rw [henc0] at h1
  exact ⟨_, h1, rfl, rfl⟩

/-- Witness for claim C4 at a collaborator heatmap buffer whose PNG encoding
step fails. -/
theorem detect_heatmap_encoding_failure_nonfatal_witness :
    ∃ resp, (detect_skin_conditions envC4 true).result = .ok resp ∧
      resp.success = true ∧ resp.heatmap_image_base64 = none :=
  detect_heatmap_encoding_failure_nonfatal envC4 ⟨5, 7, 0⟩ resHeat ⟨true, 3⟩
    (by decide) (by decide) rfl rfl rfl rfl rfl rfl (Or.inl rfl)

/-- Claim C7: whenever /detect invokes the detection collaborator, the image
staged at the temporary path it receives is exactly 640 x 640: it is the
resize of the decoded upload, re-encoded over the same temporary file. -/
theorem detect_analyze_receives_640 (env : DetectEnv) (avail : Bool)
    (img : Image)
    (h : (detect_skin_conditions env avail).analyzeCalledWith = some img) :
    img.width = 640 ∧ img.height = 640 ∧
    ∃ img0, env.imdecode env.content = some img0 ∧
      img = resize640 env img0 := by
  unfold detect_skin_conditions at h
  cases avail with
  | false => exact Option.noConfusion h
  | true =>
    cases hct : allowed_types.contains env.contentType with
    | false => simp only [hct] at h; exact Option.noConfusion h
    | true =>
      simp only [hct] at h
      cases hcc : env.content with
      | nil => simp only [hcc] at h; exact Option.noConfusion h
      | cons b bs =>
        simp only [hcc] at h
        cases hd : env.imdecode (b :: bs) with
        | none => simp only [hd] at h; exact Option.noConfusion h
        | some img0 =>
          simp only [hd] at h
          cases hm : env.modelExists with
          | false => simp only [hm] at h; exact Option.noConfusion h
          | true =>
            simp only [hm] at h
            cases ha : env.analyze (resize640 env img0) with
            | error e =>
              simp only [ha, Option.some.injEq] at h
              subst h
              exact ⟨rfl, rfl, img0, rfl, rfl⟩
            | ok r =>
              simp only [ha, Option.some.injEq] at h
              subst h
              exact ⟨rfl, rfl, img0, rfl, rfl⟩

/-- Witness for claim C7: in the baseline environment the collaborator is
invoked and receives the 640 x 640 resize of the decoded 5 x 7 upload. -/
theorem detect_analyze_receives_640_witness :
    (⟨640, 640, 9⟩ : Image).width = 640 ∧
    (⟨640, 640, 9⟩ : Image).height = 640 ∧
    ∃ img0, envBase.imdecode envBase.content = some img0 ∧
      (⟨640, 640, 9⟩ : Image) = resize640 envBase img0 :=
  detect_analyze_receives_640 envBase true ⟨640, 640, 9⟩ rfl

end AcneAPI
